import Mathlib

/-!
Verification development for the CFDI extraction engine
(`proyecto_cfdi`): a shallow embedding of the two Python extractor
variants (`cfdi_tool/extractor.py` and `scripts/cfdi_extractor.py`)
over a model of `xml.etree.ElementTree` trees, together with theorems
about the behaviour of the loaders, section extractors and record
assembly.

Modelling conventions:
  - An XML element is a namespace URI, a local tag name, an attribute
    list and a child list (`XmlElem`).  ElementTree stores tags as
    `\x7bnamespace\x7dlocal`; we keep the two parts separate and
    reconstruct the full tag where the source inspects it.
  - `find('ns:Tag')` on a relative path searches direct children;
    `find('.//ns:Tag')`/`findall('.//ns:Tag')` search all descendants
    in document (pre)order.
  - Python `float(x)` is modelled by `pyFloat` over `Rat`: it succeeds
    on the integer default `0` and on plain decimal literals, and
    raises (`Except.error`) on other strings, as `float` does.
  - Python dictionaries returned by the issuer/recipient extractors
    are modelled as association lists so that the *key set* of the
    result is observable (the scripts recipient extractor can return
    an empty dict).
  - Functions that can raise `ValueError` (every extractor that calls
    `float`) return `Except Unit _`; all other extractors are total
    Lean functions, mirroring the source.
-/

deriving instance DecidableEq for Except

namespace CFDI

/-- An XML element: namespace URI, local tag, attributes, children. -/
inductive XmlElem where
  | mk (ns tag : String) (attrs : List (String × String)) (children : List XmlElem)

def XmlElem.ns : XmlElem → String
  | .mk n _ _ _ => n

def XmlElem.tag : XmlElem → String
  | .mk _ t _ _ => t

def XmlElem.attrs : XmlElem → List (String × String)
  | .mk _ _ a _ => a

def XmlElem.children : XmlElem → List XmlElem
  | .mk _ _ _ c => c

/-- `elem.get(key)` — first attribute with the given name, if any. -/
def XmlElem.get? (e : XmlElem) (k : String) : Option String :=
  (e.attrs.find? (fun p => p.1 == k)).map Prod.snd

/-- `elem.get(key, default)` with a string default. -/
def XmlElem.getSD (e : XmlElem) (k d : String) : String :=
  (e.get? k).getD d

/-- The value handed to Python `float(...)`: either the string value of a
present attribute or the integer default `0`. -/
inductive PyVal where
  | str (s : String)
  | int (n : Int)
  deriving DecidableEq, Repr

/-- `elem.get(key, 0)` as fed to `float`. -/
def XmlElem.getD0 (e : XmlElem) (k : String) : PyVal :=
  match e.get? k with
  | some v => .str v
  | none => .int 0

def digitsToNat (cs : List Char) : Nat :=
  cs.foldl (fun a c => 10 * a + (c.toNat - '0'.toNat)) 0

/-- Plain decimal literals accepted by the model of Python `float`:
optional sign, then digits with an optional fractional part. -/
def parseDecimal (s : String) : Option Rat :=
  let cs := s.toList
  let signAndRest : Bool × List Char :=
    match cs with
    | '-' :: rest => (true, rest)
    | '+' :: rest => (false, rest)
    | _ => (false, cs)
  let neg := signAndRest.1
  let body := signAndRest.2
  let intPart := body.takeWhile Char.isDigit
  let rest := body.dropWhile Char.isDigit
  let mag : Option Rat :=
    match rest with
    | [] => if intPart.isEmpty then none else some (digitsToNat intPart : Rat)
    | '.' :: frac =>
        if frac.all Char.isDigit && !(intPart.isEmpty && frac.isEmpty) then
          some ((digitsToNat intPart : Rat) + (digitsToNat frac : Rat) / (10 : Rat) ^ frac.length)
        else none
    | _ => none
  mag.map (fun q => if neg then -q else q)

/-- Model of Python `float(x)`: converts the integer default exactly and
parses decimal strings, raising `ValueError` (here `Except.error ()`)
on non-numeric text. -/
def pyFloat : PyVal → Except Unit Rat
  | .int n => .ok (n : Rat)
  | .str s =>
      match parseDecimal s with
      | some q => .ok q
      | none => .error ()

/- Namespace URIs from the extractors' namespace tables. -/

def nsCfdi : String := "http://www.sat.gob.mx/cfd/4"

def nsCfdi33 : String := "http://www.sat.gob.mx/cfd/3"

def nsTfd : String := "http://www.sat.gob.mx/TimbreFiscalDigital"

def nsPago20 : String := "http://www.sat.gob.mx/Pagos20"

def nsPago10 : String := "http://www.sat.gob.mx/Pagos"

/-- Does an element carry the given namespace and local tag? -/
def isTag (ns tag : String) (e : XmlElem) : Bool :=
  e.ns == ns && e.tag == tag

mutual

/-- Document (pre)order listing of an element and all its descendants. -/
def preorder : XmlElem → List XmlElem
  | .mk ns tag attrs children => .mk ns tag attrs children :: preorderList children

/-- Document order listing of a forest. -/
def preorderList : List XmlElem → List XmlElem
  | [] => []
  | c :: cs => preorder c ++ preorderList cs

end

/-- All proper descendants of an element, in document order (the node
set searched by an ElementTree `.//` path). -/
def descendants (e : XmlElem) : List XmlElem :=
  preorderList e.children

/-- `elem.findall('ns:Tag')` — matching direct children, in order. -/
def childrenTagged (e : XmlElem) (ns tag : String) : List XmlElem :=
  e.children.filter (isTag ns tag)

/-- `elem.find('ns:Tag')` — first matching direct child. -/
def findChild (e : XmlElem) (ns tag : String) : Option XmlElem :=
  (childrenTagged e ns tag).head?

/-- `elem.findall('ns:A/ns:B')` — all `B` children of all `A` children,
in document order. -/
def findallPath2 (e : XmlElem) (ns t1 t2 : String) : List XmlElem :=
  ((childrenTagged e ns t1).map (fun a => childrenTagged a ns t2)).flatten

/-- `elem.findall('.//ns:Tag')` — all matching descendants in document
order. -/
def descendantsTagged (e : XmlElem) (ns tag : String) : List XmlElem :=
  (descendants e).filter (isTag ns tag)

/-- `elem.find('.//ns:Tag')` — first matching descendant. -/
def findDesc (e : XmlElem) (ns tag : String) : Option XmlElem :=
  (descendantsTagged e ns tag).head?

/-- Python truthiness of an `Element`-or-`None` value: `None` is falsy
and an element is falsy iff it has no children. -/
def elemTruthy : Option XmlElem → Bool
  | none => false
  | some e => !e.children.isEmpty

/-- The `findall('.//ns1:Tag')` / `if not result: findall('.//ns2:Tag')`
fallback pattern (Python list falsiness), recurring throughout the
payment extractors. -/
def descFallback (e : XmlElem) (ns1 ns2 tag : String) : List XmlElem :=
  let l0 := descendantsTagged e ns1 tag
  if l0.isEmpty then descendantsTagged e ns2 tag else l0

/-- The `find('.//ns1:Tag')` / `if result is None: find('.//ns2:Tag')`
fallback pattern (explicit `is None` test). -/
def findDescFallback (e : XmlElem) (ns1 ns2 tag : String) : Option XmlElem :=
  match findDesc e ns1 tag with
  | some x => some x
  | none => findDesc e ns2 tag

/-- Python truthiness of a `str`-or-`None` value. -/
def strTruthy : Option String → Bool
  | none => false
  | some s => !s.isEmpty

/-- Python `a or b` on string-or-`None` values. -/
def pyOrStr (a b : Option String) : Option String :=
  if strTruthy a then a else b

/-- Python `str(x)` on a string-or-`None` value (`None` prints as such),
used by the comprobante-type translation's f-string. -/
def pyStrOfOpt : Option String → String
  | none => "None"
  | some s => s

/-- The ElementTree tag string of an element, `\x7bns\x7dLocal` when the
element is namespaced. -/
def fullTag (e : XmlElem) : String :=
  if e.ns.isEmpty then e.tag else "\x7b" ++ e.ns ++ "\x7d" ++ e.tag

/-- Substring test used by the version heuristic's Python `in`. -/
def strContains (s sub : String) : Bool :=
  decide (List.IsInfix sub.toList s.toList)

/- Record structures shared by the two extractor variants.  Each models
the Python dict produced by the corresponding `extraer_*` method, with
`Option String` for values that may be `None`. -/

/-- `datos_generales` dict of `extraer_datos_generales`. -/
structure DatosGenerales where
  version : Option String
  serie : String
  folio : String
  fecha : Option String
  subtotal : Rat
  total : Rat
  moneda : String
  tipo_comprobante : String
  metodo_pago : String
  lugar_expedicion : Option String
  deriving DecidableEq, Repr

/-- One transferred/withheld tax dict (`Traslado`/`Retencion`, and the
payment-complement `TrasladoDR` which has the same shape). -/
structure TaxEntry where
  base : Rat
  impuesto : Option String
  tipo_factor : Option String
  tasa_cuota : Rat
  importe : Rat
  deriving DecidableEq, Repr

/-- The `impuestos` dict of `extraer_impuestos_concepto`. -/
structure Impuestos where
  traslados : List TaxEntry
  retenciones : List TaxEntry
  deriving DecidableEq, Repr

/-- One line-item (`Concepto`) dict of `extraer_conceptos`. -/
structure Concepto where
  clave_prod_serv : Option String
  cantidad : Rat
  clave_unidad : Option String
  descripcion : Option String
  valor_unitario : Rat
  importe : Rat
  descuento : Rat
  objeto_imp : Option String
  impuestos : Impuestos
  deriving DecidableEq, Repr

/-- The fiscal-stamp dict of `extraer_timbre` when the stamp exists. -/
structure Timbre where
  uuid : Option String
  fecha_timbrado : Option String
  rfc_prov_certif : Option String
  no_certificado_sat : Option String
  deriving DecidableEq, Repr

/-- One related-document dict of the `cfdi_tool` payment extractor
(carries per-document transferred taxes). -/
structure DoctoRelacionado where
  id_documento : Option String
  serie : Option String
  folio : Option String
  moneda : Option String
  imp_saldo_ant : Rat
  imp_pagado : Rat
  imp_saldo_insoluto : Rat
  traslados_dr : List TaxEntry
  deriving DecidableEq, Repr

/-- One payment dict of the `cfdi_tool` payment extractor. -/
structure Pago where
  fecha_pago : Option String
  forma_pago : Option String
  moneda : Option String
  monto : Rat
  documentos_relacionados : List DoctoRelacionado
  deriving DecidableEq, Repr

/-- One related-document dict of the `scripts` payment extractor (no
per-document tax list). -/
structure DoctoRelacionadoS where
  id_documento : Option String
  serie : Option String
  folio : Option String
  moneda : Option String
  imp_saldo_ant : Rat
  imp_pagado : Rat
  imp_saldo_insoluto : Rat
  deriving DecidableEq, Repr

/-- One payment dict of the `scripts` payment extractor. -/
structure PagoS where
  fecha_pago : Option String
  forma_pago : Option String
  moneda : Option String
  monto : Rat
  documentos_relacionados : List DoctoRelacionadoS
  deriving DecidableEq, Repr

/-- `traducir_tipo_comprobante`: fixed code→label table with a labelled
fallback embedding the raw code (identical in both variants). -/
def traducir_tipo_comprobante (tipo : Option String) : String :=
  match tipo with
  | some "I" => "Ingreso (Factura)"
  | some "E" => "Egreso (Nota de Crédito)"
  | some "P" => "Pago"
  | some "N" => "Nómina"
  | some "T" => "Traslado"
  | _ => "Desconocido (" ++ pyStrOfOpt tipo ++ ")"

/-- `detectar_version` of `cfdi_tool/extractor.py`: the `Version` or
`version` attribute when truthy, else a substring heuristic on the
lower-cased root tag. -/
def detectar_version (root : XmlElem) : String :=
  let v := pyOrStr (root.get? "Version") (root.get? "version")
  if strTruthy v then v.getD ""
  else
    let tag_lower := (fullTag root).toLower
    if strContains tag_lower "cfd/4" || (strContains tag_lower "cfdi" && strContains tag_lower "4") then "4.0"
    else if strContains tag_lower "cfd/3" || (strContains tag_lower "cfdi" && strContains tag_lower "3") then "3.3"
    else "Desconocida"

namespace CfdiTool

/-- `extraer_datos_generales` (`cfdi_tool/extractor.py` lines 89–104).
`float` on the two amount attributes can raise, hence `Except`. -/
def extraer_datos_generales (root : XmlElem) : Except Unit DatosGenerales := do
  let subtotal ← pyFloat (root.getD0 "SubTotal")
  let total ← pyFloat (root.getD0 "Total")
  pure { version := root.get? "Version"
         serie := root.getSD "Serie" "Sin Serie"
         folio := root.getSD "Folio" "Sin Folio"
         fecha := root.get? "Fecha"
         subtotal := subtotal
         total := total
         moneda := root.getSD "Moneda" "MXN"
         tipo_comprobante := traducir_tipo_comprobante (root.get? "TipoDeComprobante")
         metodo_pago := root.getSD "MetodoPago" "Pago parcial"
         lugar_expedicion := some (root.getSD "LugarExpedicion" "SIN_LUGAR") }

/-- `extraer_emisor` (lines 117–131): CFDI 4.0 namespace first, 3.3
fallback; a consistent all-`None` dict when both are absent. -/
def extraer_emisor (root : XmlElem) : List (String × Option String) :=
  let emisor :=
    match findChild root nsCfdi "Emisor" with
    | some e => some e
    | none => findChild root nsCfdi33 "Emisor"
  match emisor with
  | some e =>
      [("rfc", e.get? "Rfc"),
       ("nombre", some (e.getSD "Nombre" "Sin Nombre")),
       ("regimen_fiscal", e.get? "RegimenFiscal")]
  | none => [("rfc", none), ("nombre", none), ("regimen_fiscal", none)]

/-- `extraer_receptor` (lines 133–148): namespace fallback, and an
all-`None` dict with the same six keys when the element is absent. -/
def extraer_receptor (root : XmlElem) : List (String × Option String) :=
  let receptor :=
    match findChild root nsCfdi "Receptor" with
    | some e => some e
    | none => findChild root nsCfdi33 "Receptor"
  match receptor with
  | some r =>
      [("rfc", r.get? "Rfc"),
       ("nombre", some (r.getSD "Nombre" "Sin Nombre")),
       ("uso_cfdi", r.get? "UsoCFDI"),
       ("regimen_fiscal", r.get? "RegimenFiscalReceptor"),
       ("domicilio_fiscal", r.get? "DomicilioFiscalReceptor"),
       ("domicilio_fiscal_receptor", r.get? "DomicilioFiscalReceptor")]
  | none =>
      [("rfc", none), ("nombre", none), ("uso_cfdi", none),
       ("regimen_fiscal", none), ("domicilio_fiscal", none),
       ("domicilio_fiscal_receptor", none)]

/-- Body of the `Traslado`/`Retencion` loops of
`extraer_impuestos_concepto` (lines 184–202; the two loop bodies are
identical up to the source element). -/
def taxEntry_of (t : XmlElem) : Except Unit TaxEntry := do
  let base ← pyFloat (t.getD0 "Base")
  let tasa_cuota ← pyFloat (t.getD0 "TasaOCuota")
  let importe ← pyFloat (t.getD0 "Importe")
  pure { base := base
         impuesto := t.get? "Impuesto"
         tipo_factor := t.get? "TipoFactor"
         tasa_cuota := tasa_cuota
         importe := importe }

/-- `extraer_impuestos_concepto` (lines 178–204): all `Traslado` and
`Retencion` descendants of the item, CFDI 4.0 namespace only. -/
def extraer_impuestos_concepto (concepto : XmlElem) : Except Unit Impuestos := do
  let traslados ← (descendantsTagged concepto nsCfdi "Traslado").mapM taxEntry_of
  let retenciones ← (descendantsTagged concepto nsCfdi "Retencion").mapM taxEntry_of
  pure { traslados := traslados, retenciones := retenciones }

/-- The `Concepto` elements scanned by `extraer_conceptos` (lines
155–157): `Conceptos/Concepto` in the 4.0 namespace, else 3.3. -/
def conceptoElems (root : XmlElem) : List XmlElem :=
  let cs := findallPath2 root nsCfdi "Conceptos" "Concepto"
  if cs.isEmpty then findallPath2 root nsCfdi33 "Conceptos" "Concepto" else cs

/-- Body of the `extraer_conceptos` loop (lines 160–174). -/
def concepto_of (c : XmlElem) : Except Unit Concepto := do
  let cantidad ← pyFloat (c.getD0 "Cantidad")
  let valor_unitario ← pyFloat (c.getD0 "ValorUnitario")
  let importe ← pyFloat (c.getD0 "Importe")
  let descuento ← pyFloat (c.getD0 "Descuento")
  let impuestos ← extraer_impuestos_concepto c
  pure { clave_prod_serv := c.get? "ClaveProdServ"
         cantidad := cantidad
         clave_unidad := c.get? "ClaveUnidad"
         descripcion := c.get? "Descripcion"
         valor_unitario := valor_unitario
         importe := importe
         descuento := descuento
         objeto_imp := c.get? "ObjetoImp"
         impuestos := impuestos }

/-- `extraer_conceptos` (lines 150–176). -/
def extraer_conceptos (root : XmlElem) : Except Unit (List Concepto) :=
  (conceptoElems root).mapM concepto_of

/-- `extraer_timbre` (lines 206–216): `none` models the empty dict
returned when no fiscal stamp is found. -/
def extraer_timbre (root : XmlElem) : Option Timbre :=
  (findDesc root nsTfd "TimbreFiscalDigital").map fun t =>
    { uuid := t.get? "UUID"
      fecha_timbrado := t.get? "FechaTimbrado"
      rfc_prov_certif := t.get? "RfcProvCertif"
      no_certificado_sat := t.get? "NoCertificadoSAT" }

/-- Body of the `TrasladoDR` loop of `extraer_complemento_pagos`
(lines 270–277). -/
def trasladoDR_of (t : XmlElem) : Except Unit TaxEntry := do
  let base ← pyFloat (t.getD0 "BaseDR")
  let tasa_cuota ← pyFloat (t.getD0 "TasaOCuotaDR")
  let importe ← pyFloat (t.getD0 "ImporteDR")
  pure { base := base
         impuesto := t.get? "ImpuestoDR"
         tipo_factor := t.get? "TipoFactorDR"
         tasa_cuota := tasa_cuota
         importe := importe }

/-- The `TrasladoDR` block of the `DoctoRelacionado` loop (lines
259–277): locate `ImpuestosDR` (2.0 then 1.0, `is None` test), then
collect its `TrasladoDR` descendants (2.0 list, else 1.0, with list
falsiness); an empty list when no `ImpuestosDR` is found. -/
def trasladosDR_of (doc : XmlElem) : Except Unit (List TaxEntry) :=
  match findDescFallback doc nsPago20 nsPago10 "ImpuestosDR" with
  | none => pure []
  | some idr => (descFallback idr nsPago20 nsPago10 "TrasladoDR").mapM trasladoDR_of

/-- Body of the `DoctoRelacionado` loop of `extraer_complemento_pagos`
(lines 258–291): the nested transferred-tax block, then the document
fields. -/
def docto_of (doc : XmlElem) : Except Unit DoctoRelacionado := do
  let traslados_dr ← trasladosDR_of doc
  let imp_saldo_ant ← pyFloat (doc.getD0 "ImpSaldoAnt")
  let imp_pagado ← pyFloat (doc.getD0 "ImpPagado")
  let imp_saldo_insoluto ← pyFloat (doc.getD0 "ImpSaldoInsoluto")
  pure { id_documento := doc.get? "IdDocumento"
         serie := doc.get? "Serie"
         folio := doc.get? "Folio"
         moneda := doc.get? "MonedaDR"
         imp_saldo_ant := imp_saldo_ant
         imp_pagado := imp_pagado
         imp_saldo_insoluto := imp_saldo_insoluto
         traslados_dr := traslados_dr }

/-- Body of the `Pago` loop of `extraer_complemento_pagos` (lines
244–292): payment header fields plus related documents (2.0 list,
else 1.0, with Python list falsiness). -/
def pago_of (pago : XmlElem) : Except Unit Pago := do
  let monto ← pyFloat (pago.getD0 "Monto")
  let documentos_relacionados ←
    (descFallback pago nsPago20 nsPago10 "DoctoRelacionado").mapM docto_of
  pure { fecha_pago := pago.get? "FechaPago"
         forma_pago := pago.get? "FormaDePagoP"
         moneda := pago.get? "MonedaP"
         monto := monto
         documentos_relacionados := documentos_relacionados }

/-- `extraer_complemento_pagos` (lines 235–294). -/
def extraer_complemento_pagos (pagos : XmlElem) : Except Unit (List Pago) :=
  (descFallback pagos nsPago20 nsPago10 "Pago").mapM pago_of

/-- The payments-container choice of `extraer_complementos` (lines
223–225).  The source's `if not pagos:` uses Python *element
falsiness* (an element with no children is falsy), modelled by
`elemTruthy`. -/
def pagosContainer (root : XmlElem) : Option XmlElem :=
  let p0 := findDesc root nsPago20 "Pagos"
  if elemTruthy p0 then p0 else findDesc root nsPago10 "Pagos"

/-- `extraer_complementos` (lines 218–233); `none` in the result means
the `pagos` key is absent from the complements dict. -/
def extraer_complementos (root : XmlElem) : Except Unit (Option (List Pago)) :=
  match pagosContainer root with
  | some p => do
      let l ← extraer_complemento_pagos p
      pure (some l)
  | none => pure none

/-- The assembled result dict of `procesar_cfdi_completo` (lines
305–315). -/
structure Resultado where
  archivo : String
  fecha_procesamiento : String
  datos_generales : DatosGenerales
  emisor : List (String × Option String)
  receptor : List (String × Option String)
  conceptos : List Concepto
  timbre : Option Timbre
  complementos : Option (List Pago)
  impuestos : Impuestos
  deriving DecidableEq, Repr

/-- `procesar_cfdi_completo` (lines 296–320) after a successful load:
assembles every section extractor's output.  The processing timestamp
(`datetime.now().isoformat()` in the source) is an explicit argument,
making the side effect visible. -/
def procesar_cfdi_completo (archivo fecha_procesamiento : String) (root : XmlElem) :
    Except Unit Resultado := do
  let datos_generales ← extraer_datos_generales root
  let conceptos ← extraer_conceptos root
  let complementos ← extraer_complementos root
  let impuestos ← extraer_impuestos_concepto root
  pure { archivo := archivo
         fecha_procesamiento := fecha_procesamiento
         datos_generales := datos_generales
         emisor := extraer_emisor root
         receptor := extraer_receptor root
         conceptos := conceptos
         timbre := extraer_timbre root
         complementos := complementos
         impuestos := impuestos }

end CfdiTool

namespace Scripts

/-- `extraer_datos_generales` (`scripts/cfdi_extractor.py` lines
82–97): same fields as the `cfdi_tool` variant but with default
`"No especificado"` for `MetodoPago` and *no* default for
`LugarExpedicion`. -/
def extraer_datos_generales (root : XmlElem) : Except Unit DatosGenerales := do
  let subtotal ← pyFloat (root.getD0 "SubTotal")
  let total ← pyFloat (root.getD0 "Total")
  pure { version := root.get? "Version"
         serie := root.getSD "Serie" "Sin Serie"
         folio := root.getSD "Folio" "Sin Folio"
         fecha := root.get? "Fecha"
         subtotal := subtotal
         total := total
         moneda := root.getSD "Moneda" "MXN"
         tipo_comprobante := traducir_tipo_comprobante (root.get? "TipoDeComprobante")
         metodo_pago := root.getSD "MetodoPago" "No especificado"
         lugar_expedicion := root.get? "LugarExpedicion" }

/-- `extraer_emisor` (lines 110–123): 4.0 namespace first, 3.3
fallback, all-`None` dict when both are absent. -/
def extraer_emisor (root : XmlElem) : List (String × Option String) :=
  let emisor :=
    match findChild root nsCfdi "Emisor" with
    | some e => some e
    | none => findChild root nsCfdi33 "Emisor"
  match emisor with
  | some e =>
      [("rfc", e.get? "Rfc"),
       ("nombre", some (e.getSD "Nombre" "Sin Nombre")),
       ("regimen_fiscal", e.get? "RegimenFiscal")]
  | none => [("rfc", none), ("nombre", none), ("regimen_fiscal", none)]

/-- `extraer_receptor` (lines 125–140): unlike every other variant it
returns the *empty* dict (here the empty association list) when the
`Receptor` element is absent. -/
def extraer_receptor (root : XmlElem) : List (String × Option String) :=
  let receptor :=
    match findChild root nsCfdi "Receptor" with
    | some e => some e
    | none => findChild root nsCfdi33 "Receptor"
  match receptor with
  | none => []
  | some r =>
      [("rfc", r.get? "Rfc"),
       ("nombre", some (r.getSD "Nombre" "Sin Nombre")),
       ("uso_cfdi", r.get? "UsoCFDI"),
       ("regimen_fiscal", r.get? "RegimenFiscalReceptor"),
       ("domicilio_fiscal", r.get? "DomicilioFiscalReceptor")]

/-- Body of the `DoctoRelacionado` loop of the scripts
`extraer_complemento_pagos` (lines 238–247). -/
def docto_of (doc : XmlElem) : Except Unit DoctoRelacionadoS := do
  let imp_saldo_ant ← pyFloat (doc.getD0 "ImpSaldoAnt")
  let imp_pagado ← pyFloat (doc.getD0 "ImpPagado")
  let imp_saldo_insoluto ← pyFloat (doc.getD0 "ImpSaldoInsoluto")
  pure { id_documento := doc.get? "IdDocumento"
         serie := doc.get? "Serie"
         folio := doc.get? "Folio"
         moneda := doc.get? "MonedaDR"
         imp_saldo_ant := imp_saldo_ant
         imp_pagado := imp_pagado
         imp_saldo_insoluto := imp_saldo_insoluto }

/-- Body of the `Pago` loop of the scripts `extraer_complemento_pagos`
(lines 225–249). -/
def pago_of (pago : XmlElem) : Except Unit PagoS := do
  let monto ← pyFloat (pago.getD0 "Monto")
  let documentos_relacionados ←
    (descFallback pago nsPago20 nsPago10 "DoctoRelacionado").mapM docto_of
  pure { fecha_pago := pago.get? "FechaPago"
         forma_pago := pago.get? "FormaDePagoP"
         moneda := pago.get? "MonedaP"
         monto := monto
         documentos_relacionados := documentos_relacionados }

/-- `extraer_complemento_pagos` (lines 218–251). -/
def extraer_complemento_pagos (pagos : XmlElem) : Except Unit (List PagoS) :=
  (descFallback pagos nsPago20 nsPago10 "Pago").mapM pago_of

/-- `extraer_complementos` (lines 204–216).  Unlike the `cfdi_tool`
variant, the fallback test is `if pagos is None:` — a present 2.0
container is used even when it has no children. -/
def extraer_complementos (root : XmlElem) : Except Unit (Option (List PagoS)) :=
  match findDescFallback root nsPago20 nsPago10 "Pagos" with
  | some p => do
      let l ← extraer_complemento_pagos p
      pure (some l)
  | none => pure none

end Scripts

/- Loader model (`cargar_cfdi`, `cfdi_tool/extractor.py` lines 42–68;
the scripts variant lines 38–62 is byte-for-byte the same control
flow).  File-system access and the XML parser are collaborators, so
the input is abstracted into the four cases the `try` block can
encounter; the function mirrors the handler structure exactly. -/

/-- What the file system and XML parser yield for one input path. -/
inductive LoadInput where
  | missing (path : String)
  | malformed (path msg : String)
  | ioError (path msg : String)
  | wellFormed (path : String) (root : XmlElem)

/-- Observable outcome of `cargar_cfdi`: the returned value (the root
element on success, `None` on every failure) and the line printed. -/
structure LoadResult where
  root : Option XmlElem
  log : String

/-- `cargar_cfdi`: the explicit `FileNotFoundError` raised for a
missing path is caught by the *generic* `except Exception` handler
(the specific `except ET.ParseError` only matches parser failures), so
every failure returns `None`, distinguished only by the printed
message. -/
def cargar_cfdi : LoadInput → LoadResult
  | .missing path =>
      { root := none
        log := "❌ Error inesperado: No se encontró el archivo: " ++ path }
  | .malformed _ msg =>
      { root := none, log := "❌ Error al parsear XML: " ++ msg }
  | .ioError _ msg =>
      { root := none, log := "❌ Error inesperado: " ++ msg }
  | .wellFormed _ root =>
      { root := some root
        log := "📄 CFDI Versión " ++ detectar_version root ++ " cargado correctamente" }

/- ----------------------------------------------------------------
Numeric well-formedness: every numeric attribute that is present on
some element of the tree holds decimal numeric text.  This is exactly
the condition under which none of the `float(...)` calls of the
extractors can raise.
---------------------------------------------------------------- -/

/-- The attribute names the extractors pass through `float`. -/
def numericKeys : List String :=
  ["SubTotal", "Total", "Cantidad", "ValorUnitario", "Importe", "Descuento",
   "Base", "TasaOCuota", "Monto", "ImpSaldoAnt", "ImpPagado", "ImpSaldoInsoluto",
   "BaseDR", "TasaOCuotaDR", "ImporteDR"]

/-- Every numeric attribute present on `e` parses as a decimal. -/
def numOkElem (e : XmlElem) : Bool :=
  numericKeys.all fun k =>
    match e.get? k with
    | some v => (parseDecimal v).isSome
    | none => true

/-- Every numeric attribute present anywhere in the tree parses. -/
def NumOk (root : XmlElem) : Bool :=
  (preorder root).all numOkElem

/- ----------------------------------------------------------------
Concrete documents and record values used by witnesses and
counterexamples.
---------------------------------------------------------------- -/

/-- A minimal CFDI 4.0 document (mirrors the repository's test
fixture `minimal_cfdi.xml`). -/
def sampleRoot : XmlElem :=
  .mk nsCfdi "Comprobante"
    [("Version", "4.0"), ("Serie", "A"), ("Folio", "1"),
     ("Fecha", "2025-12-30T12:00:00"), ("SubTotal", "100"), ("Total", "1160"),
     ("Moneda", "MXN"), ("TipoDeComprobante", "I")]
    [.mk nsCfdi "Emisor"
       [("Rfc", "DEMO010101001"), ("Nombre", "Empresa Demostrativa SA de CV"),
        ("RegimenFiscal", "601")] [],
     .mk nsCfdi "Receptor"
       [("Rfc", "XAXX010101000"), ("Nombre", "Juan Pérez González"), ("UsoCFDI", "G03")] [],
     .mk nsCfdi "Conceptos" []
       [.mk nsCfdi "Concepto"
          [("ClaveProdServ", "01010101"), ("Cantidad", "1"), ("ClaveUnidad", "H87"),
           ("Descripcion", "Servicio"), ("ValorUnitario", "100"), ("Importe", "100")] []]]

/-- A root element with no attributes and no children. -/
def bareRoot : XmlElem :=
  .mk nsCfdi "Comprobante" [] []

/-- A root whose `SubTotal` attribute holds non-numeric text. -/
def badSubTotalRoot : XmlElem :=
  .mk nsCfdi "Comprobante" [("SubTotal", "abc")] []

/-- A document with a payments complement whose 2.0 `Pagos` container
is present but childless, and no 1.0 container. -/
def emptyPagosRoot : XmlElem :=
  .mk nsCfdi "Comprobante" []
    [.mk nsCfdi "Complemento" [] [.mk nsPago20 "Pagos" [("Version", "2.0")] []]]

/-- A CFDI 3.3 document: `Emisor`/`Receptor` carry the legacy
namespace. -/
def legacyRoot : XmlElem :=
  .mk nsCfdi33 "Comprobante" [("Version", "3.3")]
    [.mk nsCfdi33 "Emisor" [("Rfc", "AAA010101AAA"), ("Nombre", "Legacy SA")] [],
     .mk nsCfdi33 "Receptor" [("Rfc", "BBB010101BBB"), ("UsoCFDI", "G01")] []]

/-- A line item with one transferred tax nested two levels deep (the
standard `Impuestos/Traslados/Traslado` nesting). -/
def sampleConcepto : XmlElem :=
  .mk nsCfdi "Concepto" [("Importe", "100")]
    [.mk nsCfdi "Impuestos" []
       [.mk nsCfdi "Traslados" []
          [.mk nsCfdi "Traslado"
             [("Base", "100"), ("Impuesto", "002"), ("TipoFactor", "Tasa"),
              ("TasaOCuota", "0.16"), ("Importe", "16")] []]]]

/-- A line item whose only tax descendants carry the legacy 3.3
namespace. -/
def legacyTaxConcepto : XmlElem :=
  .mk nsCfdi33 "Concepto" [("Importe", "100")]
    [.mk nsCfdi33 "Impuestos" []
       [.mk nsCfdi33 "Traslados" []
          [.mk nsCfdi33 "Traslado" [("Base", "100"), ("Impuesto", "002")] []]]]

/-- The legacy `Emisor` child of `legacyRoot`. -/
def legacyEmisor : XmlElem :=
  .mk nsCfdi33 "Emisor" [("Rfc", "AAA010101AAA"), ("Nombre", "Legacy SA")] []

/-- A `Concepto` element with no attributes and no children. -/
def bareConcepto : XmlElem :=
  .mk nsCfdi "Concepto" [] []

/-- The record `concepto_of` produces for `bareConcepto`. -/
def bareConceptoVal : Concepto :=
  { clave_prod_serv := none, cantidad := 0, clave_unidad := none, descripcion := none
    valor_unitario := 0, importe := 0, descuento := 0, objeto_imp := none
    impuestos := { traslados := [], retenciones := [] } }

/-- The record the `cfdi_tool` `extraer_datos_generales` produces for
`bareRoot`. -/
def bareDatosTool : DatosGenerales :=
  { version := none, serie := "Sin Serie", folio := "Sin Folio", fecha := none
    subtotal := 0, total := 0, moneda := "MXN"
    tipo_comprobante := "Desconocido (None)", metodo_pago := "Pago parcial"
    lugar_expedicion := some "SIN_LUGAR" }

/-- The record the `scripts` `extraer_datos_generales` produces for
`bareRoot`. -/
def bareDatosScripts : DatosGenerales :=
  { version := none, serie := "Sin Serie", folio := "Sin Folio", fecha := none
    subtotal := 0, total := 0, moneda := "MXN"
    tipo_comprobante := "Desconocido (None)", metodo_pago := "No especificado"
    lugar_expedicion := none }

/-- The assembled record for `bareRoot` at a given processing
timestamp. -/
def bareResultado (t : String) : CfdiTool.Resultado :=
  { archivo := "factura.xml", fecha_procesamiento := t
    datos_generales := bareDatosTool
    emisor := [("rfc", none), ("nombre", none), ("regimen_fiscal", none)]
    receptor := [("rfc", none), ("nombre", none), ("uso_cfdi", none),
                 ("regimen_fiscal", none), ("domicilio_fiscal", none),
                 ("domicilio_fiscal_receptor", none)]
    conceptos := [], timbre := none, complementos := none
    impuestos := { traslados := [], retenciones := [] } }

/- ----------------------------------------------------------------
Infrastructure lemmas: membership in the document-order listings and
behaviour of `mapM` in the `Except` monad.
---------------------------------------------------------------- -/

theorem mem_preorder_self (e : XmlElem) : e ∈ preorder e := by
  cases e with
  | mk ns tag attrs children => simp [preorder]

theorem mem_preorderList_of_mem {l : List XmlElem} {c : XmlElem} (h : c ∈ l) :
    c ∈ preorderList l := by
  induction l with
  | nil => cases h
  | cons a l ih =>
    rw [preorderList]
    rcases List.mem_cons.mp h with h1 | h2
    · exact List.mem_append_left _ (h1 ▸ mem_preorder_self a)
    · exact List.mem_append_right _ (ih h2)

mutual

theorem preorder_trans : ∀ (e x : XmlElem), x ∈ preorder e →
    ∀ y ∈ preorder x, y ∈ preorder e
  | .mk ns tag attrs children, x, hx, y, hy => by
    rw [preorder] at hx ⊢
    rcases List.mem_cons.mp hx with h1 | h2
    · subst h1; rw [preorder] at hy; exact hy
    · exact List.mem_cons_of_mem _ (preorderList_trans children x h2 y hy)

theorem preorderList_trans : ∀ (l : List XmlElem) (x : XmlElem), x ∈ preorderList l →
    ∀ y ∈ preorder x, y ∈ preorderList l
  | c :: cs, x, hx, y, hy => by
    rw [preorderList] at hx ⊢
    rcases List.mem_append.mp hx with h1 | h2
    · exact List.mem_append_left _ (preorder_trans c x h1 y hy)
    · exact List.mem_append_right _ (preorderList_trans cs x h2 y hy)

end

theorem preorder_eq_cons (e : XmlElem) : preorder e = e :: descendants e := by
  cases e with
  | mk ns tag attrs children => rw [preorder]; rfl

theorem mem_preorder_of_mem_descendants {e x : XmlElem} (h : x ∈ descendants e) :
    x ∈ preorder e := by
  rw [preorder_eq_cons]; exact List.mem_cons_of_mem _ h

theorem mem_descendants_of_child {e c : XmlElem} (h : c ∈ e.children) :
    c ∈ descendants e :=
  mem_preorderList_of_mem h

theorem mem_descendants_of_descendantsTagged {e x : XmlElem} {ns tag : String}
    (h : x ∈ descendantsTagged e ns tag) : x ∈ descendants e :=
  List.mem_of_mem_filter h

theorem mem_descendants_of_findDesc {e x : XmlElem} {ns tag : String}
    (h : findDesc e ns tag = some x) : x ∈ descendants e := by
  have hx : x ∈ descendantsTagged e ns tag := by
    unfold findDesc at h
    exact List.mem_of_mem_head? h
  exact mem_descendants_of_descendantsTagged hx

theorem mem_children_of_findChild {e x : XmlElem} {ns tag : String}
    (h : findChild e ns tag = some x) : x ∈ e.children := by
  have hx : x ∈ childrenTagged e ns tag := by
    unfold findChild at h
    exact List.mem_of_mem_head? h
  exact List.mem_of_mem_filter hx

theorem mem_preorder_of_findallPath2 {e x : XmlElem} {ns t1 t2 : String}
    (h : x ∈ findallPath2 e ns t1 t2) : x ∈ preorder e := by
  unfold findallPath2 at h
  rw [List.mem_flatten] at h
  obtain ⟨l, hl, hx⟩ := h
  rw [List.mem_map] at hl
  obtain ⟨a, ha, rfl⟩ := hl
  have ha' : a ∈ e.children := List.mem_of_mem_filter ha
  have hx' : x ∈ a.children := List.mem_of_mem_filter hx
  have hxa : x ∈ preorder a :=
    mem_preorder_of_mem_descendants (mem_descendants_of_child hx')
  exact preorder_trans e a
    (mem_preorder_of_mem_descendants (mem_descendants_of_child ha')) x hxa

theorem mapM_ok_of_forall {α β : Type} (f : α → Except Unit β) :
    ∀ (l : List α), (∀ x ∈ l, ∃ y, f x = .ok y) → ∃ ys, l.mapM f = .ok ys := by
  intro l
  induction l with
  | nil => intro _; exact ⟨[], rfl⟩
  | cons a l ih =>
    intro h
    obtain ⟨y, hy⟩ := h a (List.mem_cons_self a l)
    obtain ⟨ys, hys⟩ := ih (fun x hx => h x (List.mem_cons_of_mem a hx))
    refine ⟨y :: ys, ?_⟩
    rw [List.mapM_cons, hy, hys]
    rfl

theorem mapM_ok_map {α β γ : Type} (f : α → Except Unit β) (g : β → γ) (h : α → γ)
    (hfg : ∀ x y, f x = .ok y → g y = h x) :
    ∀ (l : List α) (ys : List β), l.mapM f = .ok ys → ys.map g = l.map h := by
  intro l
  induction l with
  | nil =>
    intro ys hys
    have h0 : (Except.ok [] : Except Unit (List β)) = Except.ok ys := hys
    injection h0 with h0
    subst h0
    simp
  | cons a l ih =>
    intro ys hys
    rw [List.mapM_cons] at hys
    cases hfa : f a with
    | error e => rw [hfa] at hys; exact absurd hys (by simp [Bind.bind, Except.bind])
    | ok y =>
      rw [hfa] at hys
      cases hml : l.mapM f with
      | error e => rw [hml] at hys; exact absurd hys (by simp [Bind.bind, Except.bind])
      | ok ys' =>
        rw [hml] at hys
        have : ys = y :: ys' := by
          simpa [Bind.bind, Except.bind, pure, Except.pure] using hys.symm
        subst this
        simp [List.map_cons, hfg a y hfa, ih ys' hml]

theorem mapM_ok_length {α β : Type} (f : α → Except Unit β)
    (l : List α) (ys : List β) (hys : l.mapM f = .ok ys) : ys.length = l.length := by
  have := mapM_ok_map f (fun _ => ()) (fun _ => ()) (fun _ _ _ => rfl) l ys hys
  calc ys.length = (ys.map fun _ => ()).length := (List.length_map _ _).symm
    _ = (l.map fun _ => ()).length := by rw [this]
    _ = l.length := List.length_map _ _

theorem numOkElem_of_NumOk {root e : XmlElem} (h : NumOk root = true)
    (he : e ∈ preorder root) : numOkElem e = true :=
  List.all_eq_true.mp h e he

theorem numOk_descend {root e : XmlElem} (h : NumOk root = true)
    (he : e ∈ preorder root) : ∀ x ∈ preorder e, numOkElem x = true :=
  fun x hx => numOkElem_of_NumOk h (preorder_trans root e he x hx)

theorem pyFloat_getD0_ok {e : XmlElem} {k : String}
    (he : numOkElem e = true) (hk : k ∈ numericKeys) :
    ∃ q, pyFloat (e.getD0 k) = .ok q := by
  have hall := List.all_eq_true.mp he k hk
  unfold XmlElem.getD0
  cases hv : e.get? k with
  | none => exact ⟨((0 : Int) : Rat), rfl⟩
  | some v =>
    rw [hv] at hall
    simp only at hall
    simp only [pyFloat]
    cases hp : parseDecimal v with
    | none => rw [hp] at hall; simp at hall
    | some q => exact ⟨q, rfl⟩

/- ----------------------------------------------------------------
Totality of the section extractors on numerically well-formed trees:
every `float(...)` call succeeds, so every stage returns a record.
---------------------------------------------------------------- -/

theorem taxEntry_of_ok {t : XmlElem} (ht : numOkElem t = true) :
    ∃ y, CfdiTool.taxEntry_of t = .ok y := by
  obtain ⟨b, hb⟩ := pyFloat_getD0_ok (k := "Base") ht (by simp [numericKeys])
  obtain ⟨c, hc⟩ := pyFloat_getD0_ok (k := "TasaOCuota") ht (by simp [numericKeys])
  obtain ⟨d, hd⟩ := pyFloat_getD0_ok (k := "Importe") ht (by simp [numericKeys])
  refine ⟨{ base := b, impuesto := t.get? "Impuesto", tipo_factor := t.get? "TipoFactor",
            tasa_cuota := c, importe := d }, ?_⟩
  unfold CfdiTool.taxEntry_of
  rw [hb, hc, hd]
  rfl

theorem mem_descendants_of_descFallback {e x : XmlElem} {ns1 ns2 tag : String}
    (h : x ∈ descFallback e ns1 ns2 tag) : x ∈ descendants e := by
  simp only [descFallback] at h
  split at h
  · exact mem_descendants_of_descendantsTagged h
  · exact mem_descendants_of_descendantsTagged h

theorem mem_descendants_of_findDescFallback {e x : XmlElem} {ns1 ns2 tag : String}
    (h : findDescFallback e ns1 ns2 tag = some x) : x ∈ descendants e := by
  unfold findDescFallback at h
  cases h1 : findDesc e ns1 tag with
  | some y => rw [h1] at h; cases h; exact mem_descendants_of_findDesc h1
  | none => rw [h1] at h; exact mem_descendants_of_findDesc h

theorem mem_descendants_of_pagosContainer {root p : XmlElem}
    (h : CfdiTool.pagosContainer root = some p) : p ∈ descendants root := by
  simp only [CfdiTool.pagosContainer] at h
  split at h
  · exact mem_descendants_of_findDesc h
  · exact mem_descendants_of_findDesc h

theorem mem_preorder_of_conceptoElems {root x : XmlElem}
    (h : x ∈ CfdiTool.conceptoElems root) : x ∈ preorder root := by
  simp only [CfdiTool.conceptoElems] at h
  split at h
  · exact mem_preorder_of_findallPath2 h
  · exact mem_preorder_of_findallPath2 h

theorem extraer_impuestos_concepto_ok {c : XmlElem}
    (H : ∀ x ∈ preorder c, numOkElem x = true) :
    ∃ y, CfdiTool.extraer_impuestos_concepto c = .ok y := by
  have h1 : ∀ x ∈ descendantsTagged c nsCfdi "Traslado", ∃ y, CfdiTool.taxEntry_of x = .ok y :=
    fun x hx => taxEntry_of_ok
      (H x (mem_preorder_of_mem_descendants (mem_descendants_of_descendantsTagged hx)))
  have h2 : ∀ x ∈ descendantsTagged c nsCfdi "Retencion", ∃ y, CfdiTool.taxEntry_of x = .ok y :=
    fun x hx => taxEntry_of_ok
      (H x (mem_preorder_of_mem_descendants (mem_descendants_of_descendantsTagged hx)))
  obtain ⟨ts, hts⟩ := mapM_ok_of_forall _ _ h1
  obtain ⟨rs, hrs⟩ := mapM_ok_of_forall _ _ h2
  refine ⟨{ traslados := ts, retenciones := rs }, ?_⟩
  unfold CfdiTool.extraer_impuestos_concepto
  rw [hts, hrs]
  rfl

theorem concepto_of_ok {c : XmlElem}
    (H : ∀ x ∈ preorder c, numOkElem x = true) :
    ∃ y, CfdiTool.concepto_of c = .ok y := by
  have hc : numOkElem c = true := H c (mem_preorder_self c)
  obtain ⟨q1, h1⟩ := pyFloat_getD0_ok (k := "Cantidad") hc (by simp [numericKeys])
  obtain ⟨q2, h2⟩ := pyFloat_getD0_ok (k := "ValorUnitario") hc (by simp [numericKeys])
  obtain ⟨q3, h3⟩ := pyFloat_getD0_ok (k := "Importe") hc (by simp [numericKeys])
  obtain ⟨q4, h4⟩ := pyFloat_getD0_ok (k := "Descuento") hc (by simp [numericKeys])
  obtain ⟨imp, himp⟩ := extraer_impuestos_concepto_ok H
  refine ⟨{ clave_prod_serv := c.get? "ClaveProdServ", cantidad := q1
            clave_unidad := c.get? "ClaveUnidad", descripcion := c.get? "Descripcion"
            valor_unitario := q2, importe := q3, descuento := q4
            objeto_imp := c.get? "ObjetoImp", impuestos := imp }, ?_⟩
  unfold CfdiTool.concepto_of
  rw [h1, h2, h3, h4, himp]
  rfl

theorem extraer_conceptos_ok {root : XmlElem} (H : NumOk root = true) :
    ∃ ys, CfdiTool.extraer_conceptos root = .ok ys := by
  unfold CfdiTool.extraer_conceptos
  refine mapM_ok_of_forall _ _ (fun c hc => ?_)
  exact concepto_of_ok (numOk_descend H (mem_preorder_of_conceptoElems hc))

theorem extraer_datos_generales_ok {root : XmlElem} (hroot : numOkElem root = true) :
    ∃ y, CfdiTool.extraer_datos_generales root = .ok y := by
  obtain ⟨q1, h1⟩ := pyFloat_getD0_ok (k := "SubTotal") hroot (by simp [numericKeys])
  obtain ⟨q2, h2⟩ := pyFloat_getD0_ok (k := "Total") hroot (by simp [numericKeys])
  refine ⟨{ version := root.get? "Version", serie := root.getSD "Serie" "Sin Serie"
            folio := root.getSD "Folio" "Sin Folio", fecha := root.get? "Fecha"
            subtotal := q1, total := q2, moneda := root.getSD "Moneda" "MXN"
            tipo_comprobante := traducir_tipo_comprobante (root.get? "TipoDeComprobante")
            metodo_pago := root.getSD "MetodoPago" "Pago parcial"
            lugar_expedicion := some (root.getSD "LugarExpedicion" "SIN_LUGAR") }, ?_⟩
  unfold CfdiTool.extraer_datos_generales
  rw [h1, h2]
  rfl

theorem trasladoDR_of_ok {t : XmlElem} (ht : numOkElem t = true) :
    ∃ y, CfdiTool.trasladoDR_of t = .ok y := by
  obtain ⟨b, hb⟩ := pyFloat_getD0_ok (k := "BaseDR") ht (by simp [numericKeys])
  obtain ⟨c, hc⟩ := pyFloat_getD0_ok (k := "TasaOCuotaDR") ht (by simp [numericKeys])
  obtain ⟨d, hd⟩ := pyFloat_getD0_ok (k := "ImporteDR") ht (by simp [numericKeys])
  refine ⟨{ base := b, impuesto := t.get? "ImpuestoDR", tipo_factor := t.get? "TipoFactorDR",
            tasa_cuota := c, importe := d }, ?_⟩
  unfold CfdiTool.trasladoDR_of
  rw [hb, hc, hd]
  rfl

theorem trasladosDR_of_ok {doc : XmlElem}
    (H : ∀ x ∈ preorder doc, numOkElem x = true) :
    ∃ ys, CfdiTool.trasladosDR_of doc = .ok ys := by
  unfold CfdiTool.trasladosDR_of
  cases hfd : findDescFallback doc nsPago20 nsPago10 "ImpuestosDR" with
  | none => exact ⟨[], rfl⟩
  | some idr =>
    have hidr : idr ∈ preorder doc :=
      mem_preorder_of_mem_descendants (mem_descendants_of_findDescFallback hfd)
    refine mapM_ok_of_forall _ _ (fun x hx => ?_)
    have hxp : x ∈ preorder doc :=
      preorder_trans doc idr hidr x
        (mem_preorder_of_mem_descendants (mem_descendants_of_descFallback hx))
    exact trasladoDR_of_ok (H x hxp)

theorem docto_of_ok {doc : XmlElem}
    (H : ∀ x ∈ preorder doc, numOkElem x = true) :
    ∃ y, CfdiTool.docto_of doc = .ok y := by
  have hdoc : numOkElem doc = true := H doc (mem_preorder_self doc)
  obtain ⟨ts, hts⟩ := trasladosDR_of_ok H
  obtain ⟨q1, h1⟩ := pyFloat_getD0_ok (k := "ImpSaldoAnt") hdoc (by simp [numericKeys])
  obtain ⟨q2, h2⟩ := pyFloat_getD0_ok (k := "ImpPagado") hdoc (by simp [numericKeys])
  obtain ⟨q3, h3⟩ := pyFloat_getD0_ok (k := "ImpSaldoInsoluto") hdoc (by simp [numericKeys])
  refine ⟨{ id_documento := doc.get? "IdDocumento", serie := doc.get? "Serie"
            folio := doc.get? "Folio", moneda := doc.get? "MonedaDR"
            imp_saldo_ant := q1, imp_pagado := q2, imp_saldo_insoluto := q3
            traslados_dr := ts }, ?_⟩
  unfold CfdiTool.docto_of
  rw [hts, h1, h2, h3]
  rfl

theorem pago_of_ok {pago : XmlElem}
    (H : ∀ x ∈ preorder pago, numOkElem x = true) :
    ∃ y, CfdiTool.pago_of pago = .ok y := by
  have hp : numOkElem pago = true := H pago (mem_preorder_self pago)
  obtain ⟨m, hm⟩ := pyFloat_getD0_ok (k := "Monto") hp (by simp [numericKeys])
  have hdocs : ∀ d ∈ descFallback pago nsPago20 nsPago10 "DoctoRelacionado",
      ∃ y, CfdiTool.docto_of d = .ok y := by
    intro d hd
    have hdp : d ∈ preorder pago :=
      mem_preorder_of_mem_descendants (mem_descendants_of_descFallback hd)
    exact docto_of_ok (fun x hx => H x (preorder_trans pago d hdp x hx))
  obtain ⟨ds, hds⟩ := mapM_ok_of_forall _ _ hdocs
  refine ⟨{ fecha_pago := pago.get? "FechaPago", forma_pago := pago.get? "FormaDePagoP"
            moneda := pago.get? "MonedaP", monto := m
            documentos_relacionados := ds }, ?_⟩
  unfold CfdiTool.pago_of
  rw [hm, hds]
  rfl

theorem extraer_complemento_pagos_ok {pagos : XmlElem}
    (H : ∀ x ∈ preorder pagos, numOkElem x = true) :
    ∃ ys, CfdiTool.extraer_complemento_pagos pagos = .ok ys := by
  unfold CfdiTool.extraer_complemento_pagos
  refine mapM_ok_of_forall _ _ (fun p hp => ?_)
  have hpp : p ∈ preorder pagos :=
    mem_preorder_of_mem_descendants (mem_descendants_of_descFallback hp)
  exact pago_of_ok (fun x hx => H x (preorder_trans pagos p hpp x hx))

theorem extraer_complementos_ok {root : XmlElem} (H : NumOk root = true) :
    ∃ y, CfdiTool.extraer_complementos root = .ok y := by
  unfold CfdiTool.extraer_complementos
  cases hpc : CfdiTool.pagosContainer root with
  | none => exact ⟨none, rfl⟩
  | some p =>
    have hpp : p ∈ preorder root :=
      mem_preorder_of_mem_descendants (mem_descendants_of_pagosContainer hpc)
    obtain ⟨l, hl⟩ := extraer_complemento_pagos_ok (numOk_descend H hpp)
    refine ⟨some l, ?_⟩
    simp only [hl]
    rfl

/-- Amended totality of the assembled pipeline: on every tree whose
present numeric attributes hold decimal numeric text, every section
extractor and the record assembly return a value. -/
theorem procesar_cfdi_completo_ok {root : XmlElem} (H : NumOk root = true)
    (archivo fecha_procesamiento : String) :
    ∃ r, CfdiTool.procesar_cfdi_completo archivo fecha_procesamiento root = .ok r := by
  have hroot : numOkElem root = true := numOkElem_of_NumOk H (mem_preorder_self root)
  obtain ⟨dg, hdg⟩ := extraer_datos_generales_ok hroot
  obtain ⟨cs, hcs⟩ := extraer_conceptos_ok H
  obtain ⟨cm, hcm⟩ := extraer_complementos_ok H
  obtain ⟨im, him⟩ := extraer_impuestos_concepto_ok (numOk_descend H (mem_preorder_self root))
  refine ⟨{ archivo := archivo, fecha_procesamiento := fecha_procesamiento
            datos_generales := dg, emisor := CfdiTool.extraer_emisor root
            receptor := CfdiTool.extraer_receptor root, conceptos := cs
            timbre := CfdiTool.extraer_timbre root, complementos := cm
            impuestos := im }, ?_⟩
  unfold CfdiTool.procesar_cfdi_completo
  rw [hdg, hcs, hcm, him]
  rfl

theorem pyFloat_getD0_of_absent {e : XmlElem} {k : String} (h : e.get? k = none) :
    pyFloat (e.getD0 k) = .ok 0 := by
  unfold XmlElem.getD0
  rw [h]
  simp [pyFloat]

theorem Scripts_docto_of_ok {doc : XmlElem} (hdoc : numOkElem doc = true) :
    ∃ y, Scripts.docto_of doc = .ok y := by
  obtain ⟨q1, h1⟩ := pyFloat_getD0_ok (k := "ImpSaldoAnt") hdoc (by simp [numericKeys])
  obtain ⟨q2, h2⟩ := pyFloat_getD0_ok (k := "ImpPagado") hdoc (by simp [numericKeys])
  obtain ⟨q3, h3⟩ := pyFloat_getD0_ok (k := "ImpSaldoInsoluto") hdoc (by simp [numericKeys])
  refine ⟨{ id_documento := doc.get? "IdDocumento", serie := doc.get? "Serie"
            folio := doc.get? "Folio", moneda := doc.get? "MonedaDR"
            imp_saldo_ant := q1, imp_pagado := q2, imp_saldo_insoluto := q3 }, ?_⟩
  unfold Scripts.docto_of
  rw [h1, h2, h3]
  rfl

theorem Scripts_pago_of_ok {pago : XmlElem}
    (H : ∀ x ∈ preorder pago, numOkElem x = true) :
    ∃ y, Scripts.pago_of pago = .ok y := by
  have hp : numOkElem pago = true := H pago (mem_preorder_self pago)
  obtain ⟨m, hm⟩ := pyFloat_getD0_ok (k := "Monto") hp (by simp [numericKeys])
  have hdocs : ∀ d ∈ descFallback pago nsPago20 nsPago10 "DoctoRelacionado",
      ∃ y, Scripts.docto_of d = .ok y := by
    intro d hd
    exact Scripts_docto_of_ok
      (H d (mem_preorder_of_mem_descendants (mem_descendants_of_descFallback hd)))
  obtain ⟨ds, hds⟩ := mapM_ok_of_forall _ _ hdocs
  refine ⟨{ fecha_pago := pago.get? "FechaPago", forma_pago := pago.get? "FormaDePagoP"
            moneda := pago.get? "MonedaP", monto := m
            documentos_relacionados := ds }, ?_⟩
  unfold Scripts.pago_of
  rw [hm, hds]
  rfl

theorem Scripts_complemento_pagos_ok {pagos : XmlElem}
    (H : ∀ x ∈ preorder pagos, numOkElem x = true) :
    ∃ ys, Scripts.extraer_complemento_pagos pagos = .ok ys := by
  unfold Scripts.extraer_complemento_pagos
  refine mapM_ok_of_forall _ _ (fun p hp => ?_)
  have hpp : p ∈ preorder pagos :=
    mem_preorder_of_mem_descendants (mem_descendants_of_descFallback hp)
  exact Scripts_pago_of_ok (fun x hx => H x (preorder_trans pagos p hpp x hx))

theorem elemTruthy_isSome {o : Option XmlElem} (h : elemTruthy o = true) :
    o.isSome = true := by
  cases o <;> simp_all [elemTruthy]

theorem taxEntry_of_impuesto {t : XmlElem} {y : TaxEntry}
    (h : CfdiTool.taxEntry_of t = .ok y) : y.impuesto = t.get? "Impuesto" := by
  unfold CfdiTool.taxEntry_of at h
  simp only [Bind.bind, Except.bind] at h
  repeat' split at h
  all_goals cases h
  all_goals rfl

/- ----------------------------------------------------------------
Claim theorems.
---------------------------------------------------------------- -/

/-- C1 counterexample: the general-data extractor raises (`float`
`ValueError`, modelled as `Except.error`) on a parsed tree whose
`SubTotal` attribute is present but holds non-numeric text, and so
does the whole record assembly — the post-Loader stages are *not*
total on all parsed trees. -/
theorem C1_nonnumeric_text_raises :
    CfdiTool.extraer_datos_generales badSubTotalRoot = .error () ∧
    CfdiTool.procesar_cfdi_completo "factura.xml" "2026-02-03T12:00:00" badSubTotalRoot =
      .error () := by
  decide

/-- C1 (amended): on every successfully parsed tree whose *present*
numeric attributes hold decimal numeric text, every stage after the
Loader — general data, line items, complements, root-level taxes, and
the full record assembly (which also runs the issuer, recipient and
fiscal-stamp extractors, total by construction) — returns a record
and never raises. -/
theorem C1_stages_total_after_loader (root : XmlElem) (H : NumOk root = true)
    (archivo fecha_procesamiento : String) :
    (∃ d, CfdiTool.extraer_datos_generales root = .ok d) ∧
    (∃ cs, CfdiTool.extraer_conceptos root = .ok cs) ∧
    (∃ cm, CfdiTool.extraer_complementos root = .ok cm) ∧
    (∃ im, CfdiTool.extraer_impuestos_concepto root = .ok im) ∧
    (∃ r, CfdiTool.procesar_cfdi_completo archivo fecha_procesamiento root = .ok r) :=
  ⟨extraer_datos_generales_ok (numOkElem_of_NumOk H (mem_preorder_self root)),
   extraer_conceptos_ok H,
   extraer_complementos_ok H,
   extraer_impuestos_concepto_ok (numOk_descend H (mem_preorder_self root)),
   procesar_cfdi_completo_ok H archivo fecha_procesamiento⟩

/-- C1 witness: the minimal 4.0 document satisfies the numeric
precondition and the assembled pipeline returns a record on it. -/
theorem C1_stages_total_after_loader_witness :
    NumOk sampleRoot = true ∧
    (∃ r, CfdiTool.procesar_cfdi_completo "factura.xml" "2026-02-03T12:00:00" sampleRoot =
        .ok r) :=
  ⟨by decide,
   (C1_stages_total_after_loader sampleRoot (by decide)
     "factura.xml" "2026-02-03T12:00:00").2.2.2.2⟩

/-- C2 counterexample: a document whose 2.0 payments container is
present but childless (and with no 1.0 container) assembles with the
payments key *absent* (`ok none`), although the container is present
— the claimed biconditional and the present-with-empty-list behaviour
fail for the `cfdi_tool` variant. -/
theorem C2_empty_container_key_absent :
    (findDesc emptyPagosRoot nsPago20 "Pagos").isSome = true ∧
    CfdiTool.extraer_complementos emptyPagosRoot = .ok none := by
  decide

/-- C2 (amended): for the `scripts` variant the claim holds as stated:
the payments key is present iff a payments container (2.0, else 1.0)
is present, and a container with zero payment elements yields the key
mapped to the empty list.  In the `cfdi_tool` variant the container
test uses Python element falsiness, so the key is present iff the 2.0
container is present *with at least one child* or a 1.0 container is
present; a childless 2.0 container alone yields an absent key. -/
theorem C2_payments_key_presence (root : XmlElem) (H : NumOk root = true) :
    ((CfdiTool.pagosContainer root).isSome = true ↔
        (elemTruthy (findDesc root nsPago20 "Pagos") = true ∨
         (findDesc root nsPago10 "Pagos").isSome = true)) ∧
    (∀ p, CfdiTool.pagosContainer root = some p →
        ∃ l, CfdiTool.extraer_complementos root = .ok (some l)) ∧
    (CfdiTool.pagosContainer root = none →
        CfdiTool.extraer_complementos root = .ok none) ∧
    (findDescFallback root nsPago20 nsPago10 "Pagos" = none →
        Scripts.extraer_complementos root = .ok none) ∧
    (∀ p, findDescFallback root nsPago20 nsPago10 "Pagos" = some p →
        ∃ l, Scripts.extraer_complementos root = .ok (some l) ∧
          (descFallback p nsPago20 nsPago10 "Pago" = [] → l = [])) := by
  refine ⟨?_, ?_, ?_, ?_, ?_⟩
  · simp only [CfdiTool.pagosContainer]
    by_cases hT : elemTruthy (findDesc root nsPago20 "Pagos") = true
    · rw [if_pos hT]
      exact ⟨fun _ => Or.inl hT, fun _ => elemTruthy_isSome hT⟩
    · rw [if_neg hT]
      constructor
      · intro hs; exact Or.inr hs
      · intro hs
        rcases hs with hs | hs
        · exact absurd hs hT
        · exact hs
  · intro p hp
    have hpp : p ∈ preorder root :=
      mem_preorder_of_mem_descendants (mem_descendants_of_pagosContainer hp)
    obtain ⟨l, hl⟩ := extraer_complemento_pagos_ok (numOk_descend H hpp)
    refine ⟨l, ?_⟩
    unfold CfdiTool.extraer_complementos
    rw [hp]
    simp only [hl]
    rfl
  · intro hp
    unfold CfdiTool.extraer_complementos
    rw [hp]
    rfl
  · intro hp
    unfold Scripts.extraer_complementos
    rw [hp]
    rfl
  · intro p hp
    have hpp : p ∈ preorder root :=
      mem_preorder_of_mem_descendants (mem_descendants_of_findDescFallback hp)
    obtain ⟨l, hl⟩ := Scripts_complemento_pagos_ok (numOk_descend H hpp)
    refine ⟨l, ?_, ?_⟩
    · unfold Scripts.extraer_complementos
      rw [hp]
      simp only [hl]
      rfl
    · intro hempty
      have hl' := hl
      unfold Scripts.extraer_complemento_pagos at hl'
      rw [hempty] at hl'
      have h0 : (Except.ok [] : Except Unit (List PagoS)) = Except.ok l := hl'
      injection h0 with h0
      exact h0.symm

/-- C2 witness: on the childless-container document the `scripts`
variant reports the payments key mapped to the empty list. -/
theorem C2_payments_key_presence_witness :
    NumOk emptyPagosRoot = true ∧
    Scripts.extraer_complementos emptyPagosRoot = .ok (some []) := by
  have h := (C2_payments_key_presence emptyPagosRoot (by decide)).2.2.2.2
      (XmlElem.mk nsPago20 "Pagos" [("Version", "2.0")] []) rfl
  obtain ⟨l, hl, hempty⟩ := h
  have hnil : l = [] := hempty rfl
  exact ⟨by decide, hnil ▸ hl⟩

/-- C3 counterexample: for a tree without a `Receptor` element the
`scripts` recipient extractor returns the *empty* dict, not an
all-null structure with the five keys it returns when the element is
present. -/
theorem C3_scripts_receptor_empty_dict :
    Scripts.extraer_receptor bareRoot = [] ∧
    (Scripts.extraer_receptor legacyRoot).map Prod.fst =
      ["rfc", "nombre", "uso_cfdi", "regimen_fiscal", "domicilio_fiscal"] := by
  decide

/-- C3 (amended): when the element is absent in both namespaces, the
`cfdi_tool` issuer and recipient extractors and the `scripts` issuer
extractor return all-null structures with exactly the field set they
produce when the element is present, and never raise; the `scripts`
*recipient* extractor instead returns the empty dict. -/
theorem C3_absent_element_defaults (root : XmlElem)
    (hE4 : findChild root nsCfdi "Emisor" = none)
    (hE3 : findChild root nsCfdi33 "Emisor" = none)
    (hR4 : findChild root nsCfdi "Receptor" = none)
    (hR3 : findChild root nsCfdi33 "Receptor" = none) :
    CfdiTool.extraer_emisor root =
      [("rfc", none), ("nombre", none), ("regimen_fiscal", none)] ∧
    CfdiTool.extraer_receptor root =
      [("rfc", none), ("nombre", none), ("uso_cfdi", none), ("regimen_fiscal", none),
       ("domicilio_fiscal", none), ("domicilio_fiscal_receptor", none)] ∧
    Scripts.extraer_emisor root =
      [("rfc", none), ("nombre", none), ("regimen_fiscal", none)] ∧
    Scripts.extraer_receptor root = [] ∧
    (∀ r : XmlElem, (CfdiTool.extraer_emisor r).map Prod.fst =
      ["rfc", "nombre", "regimen_fiscal"]) ∧
    (∀ r : XmlElem, (CfdiTool.extraer_receptor r).map Prod.fst =
      ["rfc", "nombre", "uso_cfdi", "regimen_fiscal", "domicilio_fiscal",
       "domicilio_fiscal_receptor"]) ∧
    (∀ r : XmlElem, (Scripts.extraer_emisor r).map Prod.fst =
      ["rfc", "nombre", "regimen_fiscal"]) := by
  refine ⟨?_, ?_, ?_, ?_, ?_, ?_, ?_⟩
  · unfold CfdiTool.extraer_emisor
    rw [hE4, hE3]
  · unfold CfdiTool.extraer_receptor
    rw [hR4, hR3]
  · unfold Scripts.extraer_emisor
    rw [hE4, hE3]
  · unfold Scripts.extraer_receptor
    rw [hR4, hR3]
  · intro r
    unfold CfdiTool.extraer_emisor
    cases findChild r nsCfdi "Emisor" <;> cases findChild r nsCfdi33 "Emisor" <;> rfl
  · intro r
    unfold CfdiTool.extraer_receptor
    cases findChild r nsCfdi "Receptor" <;> cases findChild r nsCfdi33 "Receptor" <;> rfl
  · intro r
    unfold Scripts.extraer_emisor
    cases findChild r nsCfdi "Emisor" <;> cases findChild r nsCfdi33 "Emisor" <;> rfl

/-- C3 witness: the bare document has no issuer/recipient elements and
gets the all-null issuer dict and the empty scripts recipient dict. -/
theorem C3_absent_element_defaults_witness :
    CfdiTool.extraer_emisor bareRoot =
      [("rfc", none), ("nombre", none), ("regimen_fiscal", none)] ∧
    Scripts.extraer_receptor bareRoot = [] :=
  ⟨(C3_absent_element_defaults bareRoot rfl rfl rfl rfl).1,
   (C3_absent_element_defaults bareRoot rfl rfl rfl rfl).2.2.2.1⟩

/-- C4 counterexample: a missing input and malformed XML produce the
*same* returned value (`None`) — the loader's failures are not
distinguishable typed failures in its return value. -/
theorem C4_failures_indistinguishable :
    (cargar_cfdi (LoadInput.missing "factura.xml")).root =
      (cargar_cfdi (LoadInput.malformed "factura.xml" "syntax error: line 1, column 0")).root ∧
    (cargar_cfdi (LoadInput.missing "factura.xml")).root = none :=
  ⟨rfl, rfl⟩

/-- C4 (amended): the loader returns `None` for every failure kind —
missing file, malformed XML and other I/O errors are distinguished
only by the printed diagnostic, the missing-file case being caught by
the *generic* handler (its message embeds the not-found text); a
malformed input yields the parse-error diagnostic and `None`, never
an unhandled fault or a partial record, and a well-formed input
yields the parsed root. -/
theorem C4_loader_untyped_failures (path msg : String) (root : XmlElem) :
    (cargar_cfdi (.missing path)).root = none ∧
    (cargar_cfdi (.missing path)).log =
      "❌ Error inesperado: No se encontró el archivo: " ++ path ∧
    (cargar_cfdi (.malformed path msg)).root = none ∧
    (cargar_cfdi (.malformed path msg)).log = "❌ Error al parsear XML: " ++ msg ∧
    (cargar_cfdi (.ioError path msg)).root = none ∧
    (cargar_cfdi (.ioError path msg)).log = "❌ Error inesperado: " ++ msg ∧
    (cargar_cfdi (.wellFormed path root)).root = some root :=
  ⟨rfl, rfl, rfl, rfl, rfl, rfl, rfl⟩

/-- C5: whenever an element is present but one of its numeric
attributes is missing, the corresponding numeric field of whatever
record the extractor returns equals 0.0 — never null, never unset,
never an error caused by the absence. -/
theorem C5_missing_numeric_attribute_zero :
    (∀ (e : XmlElem) (r : DatosGenerales), CfdiTool.extraer_datos_generales e = .ok r →
        (e.get? "SubTotal" = none → r.subtotal = 0) ∧
        (e.get? "Total" = none → r.total = 0)) ∧
    (∀ (e : XmlElem) (r : Concepto), CfdiTool.concepto_of e = .ok r →
        (e.get? "Cantidad" = none → r.cantidad = 0) ∧
        (e.get? "ValorUnitario" = none → r.valor_unitario = 0) ∧
        (e.get? "Importe" = none → r.importe = 0) ∧
        (e.get? "Descuento" = none → r.descuento = 0)) ∧
    (∀ (e : XmlElem) (r : TaxEntry), CfdiTool.taxEntry_of e = .ok r →
        (e.get? "Base" = none → r.base = 0) ∧
        (e.get? "TasaOCuota" = none → r.tasa_cuota = 0) ∧
        (e.get? "Importe" = none → r.importe = 0)) ∧
    (∀ (e : XmlElem) (r : Pago), CfdiTool.pago_of e = .ok r →
        (e.get? "Monto" = none → r.monto = 0)) ∧
    (∀ (e : XmlElem) (r : DoctoRelacionado), CfdiTool.docto_of e = .ok r →
        (e.get? "ImpSaldoAnt" = none → r.imp_saldo_ant = 0) ∧
        (e.get? "ImpPagado" = none → r.imp_pagado = 0) ∧
        (e.get? "ImpSaldoInsoluto" = none → r.imp_saldo_insoluto = 0)) ∧
    (∀ (e : XmlElem) (r : TaxEntry), CfdiTool.trasladoDR_of e = .ok r →
        (e.get? "BaseDR" = none → r.base = 0) ∧
        (e.get? "TasaOCuotaDR" = none → r.tasa_cuota = 0) ∧
        (e.get? "ImporteDR" = none → r.importe = 0)) := by
  refine ⟨fun e r h => ⟨fun hm => ?_, fun hm => ?_⟩,
          fun e r h => ⟨fun hm => ?_, fun hm => ?_, fun hm => ?_, fun hm => ?_⟩,
          fun e r h => ⟨fun hm => ?_, fun hm => ?_, fun hm => ?_⟩,
          fun e r h => fun hm => ?_,
          fun e r h => ⟨fun hm => ?_, fun hm => ?_, fun hm => ?_⟩,
          fun e r h => ⟨fun hm => ?_, fun hm => ?_, fun hm => ?_⟩⟩
  all_goals (
    simp only [CfdiTool.extraer_datos_generales, CfdiTool.concepto_of, CfdiTool.taxEntry_of,
      CfdiTool.pago_of, CfdiTool.docto_of, CfdiTool.trasladoDR_of] at h
    rw [pyFloat_getD0_of_absent hm] at h
    simp only [Bind.bind, Except.bind] at h
    repeat' split at h
    all_goals cases h
    all_goals rfl)

/-- C5 witness: an attribute-less line item yields the all-zero,
all-null record, and in particular quantity 0. -/
theorem C5_missing_numeric_attribute_zero_witness :
    CfdiTool.concepto_of bareConcepto = .ok bareConceptoVal ∧
    bareConceptoVal.cantidad = 0 :=
  ⟨by decide,
   (C5_missing_numeric_attribute_zero.2.1 bareConcepto bareConceptoVal (by decide)).1
     (by decide)⟩

/-- C6: the issuer/recipient lookup tries the 4.0 namespace first and
falls back to the legacy 3.3 namespace, so a legacy document still
yields populated structures; only when both lookups fail do the
extractors return their default (all-null dict, never an error). -/
theorem C6_namespace_fallback (root e : XmlElem) :
    (findChild root nsCfdi "Emisor" = none → findChild root nsCfdi33 "Emisor" = some e →
        CfdiTool.extraer_emisor root =
          [("rfc", e.get? "Rfc"), ("nombre", some (e.getSD "Nombre" "Sin Nombre")),
           ("regimen_fiscal", e.get? "RegimenFiscal")] ∧
        Scripts.extraer_emisor root =
          [("rfc", e.get? "Rfc"), ("nombre", some (e.getSD "Nombre" "Sin Nombre")),
           ("regimen_fiscal", e.get? "RegimenFiscal")]) ∧
    (findChild root nsCfdi "Emisor" = some e →
        CfdiTool.extraer_emisor root =
          [("rfc", e.get? "Rfc"), ("nombre", some (e.getSD "Nombre" "Sin Nombre")),
           ("regimen_fiscal", e.get? "RegimenFiscal")]) ∧
    (findChild root nsCfdi "Receptor" = none → findChild root nsCfdi33 "Receptor" = some e →
        CfdiTool.extraer_receptor root =
          [("rfc", e.get? "Rfc"), ("nombre", some (e.getSD "Nombre" "Sin Nombre")),
           ("uso_cfdi", e.get? "UsoCFDI"), ("regimen_fiscal", e.get? "RegimenFiscalReceptor"),
           ("domicilio_fiscal", e.get? "DomicilioFiscalReceptor"),
           ("domicilio_fiscal_receptor", e.get? "DomicilioFiscalReceptor")] ∧
        Scripts.extraer_receptor root =
          [("rfc", e.get? "Rfc"), ("nombre", some (e.getSD "Nombre" "Sin Nombre")),
           ("uso_cfdi", e.get? "UsoCFDI"), ("regimen_fiscal", e.get? "RegimenFiscalReceptor"),
           ("domicilio_fiscal", e.get? "DomicilioFiscalReceptor")]) ∧
    (findChild root nsCfdi "Emisor" = none → findChild root nsCfdi33 "Emisor" = none →
        CfdiTool.extraer_emisor root =
          [("rfc", none), ("nombre", none), ("regimen_fiscal", none)] ∧
        Scripts.extraer_emisor root =
          [("rfc", none), ("nombre", none), ("regimen_fiscal", none)]) := by
  refine ⟨?_, ?_, ?_, ?_⟩
  · intro h4 h3
    constructor
    · unfold CfdiTool.extraer_emisor
      rw [h4, h3]
    · unfold Scripts.extraer_emisor
      rw [h4, h3]
  · intro h4
    unfold CfdiTool.extraer_emisor
    rw [h4]
  · intro h4 h3
    constructor
    · unfold CfdiTool.extraer_receptor
      rw [h4, h3]
    · unfold Scripts.extraer_receptor
      rw [h4, h3]
  · intro h4 h3
    constructor
    · unfold CfdiTool.extraer_emisor
      rw [h4, h3]
    · unfold Scripts.extraer_emisor
      rw [h4, h3]

/-- C6 witness: the legacy 3.3 document yields a populated issuer via
the namespace fallback. -/
theorem C6_namespace_fallback_witness :
    CfdiTool.extraer_emisor legacyRoot =
      [("rfc", some "AAA010101AAA"), ("nombre", some "Legacy SA"),
       ("regimen_fiscal", none)] := by
  have h := ((C6_namespace_fallback legacyRoot legacyEmisor).1 rfl rfl).1
  rw [h]
  decide

/-- C7: the per-item tax extractor collects one entry per `Traslado`
(resp. `Retencion`) descendant of the item, at any nesting depth, in
document order and without deduplication, using only the 4.0
namespace — if no descendant carries the 4.0 tax tag (e.g. all taxes
are 3.3-namespaced) the sequences are empty. -/
theorem C7_item_taxes_descendant_search (c : XmlElem) (i : Impuestos)
    (h : CfdiTool.extraer_impuestos_concepto c = .ok i) :
    i.traslados.length = ((descendants c).filter (isTag nsCfdi "Traslado")).length ∧
    i.traslados.map TaxEntry.impuesto =
      ((descendants c).filter (isTag nsCfdi "Traslado")).map (fun e => e.get? "Impuesto") ∧
    i.retenciones.length = ((descendants c).filter (isTag nsCfdi "Retencion")).length ∧
    i.retenciones.map TaxEntry.impuesto =
      ((descendants c).filter (isTag nsCfdi "Retencion")).map (fun e => e.get? "Impuesto") ∧
    ((∀ x ∈ descendants c, isTag nsCfdi "Traslado" x = false) → i.traslados = []) := by
  unfold CfdiTool.extraer_impuestos_concepto at h
  simp only [Bind.bind, Except.bind] at h
  cases hts : (descendantsTagged c nsCfdi "Traslado").mapM CfdiTool.taxEntry_of with
  | error e => rw [hts] at h; cases h
  | ok ts =>
    cases hrs : (descendantsTagged c nsCfdi "Retencion").mapM CfdiTool.taxEntry_of with
    | error e => rw [hts, hrs] at h; cases h
    | ok rs =>
      rw [hts, hrs] at h
      cases h
      refine ⟨mapM_ok_length _ _ _ hts, ?_, mapM_ok_length _ _ _ hrs, ?_, ?_⟩
      · exact mapM_ok_map _ _ _ (fun x y hy => taxEntry_of_impuesto hy) _ _ hts
      · exact mapM_ok_map _ _ _ (fun x y hy => taxEntry_of_impuesto hy) _ _ hrs
      · intro hnone
        have hempty : descendantsTagged c nsCfdi "Traslado" = [] := by
          unfold descendantsTagged
          rw [List.filter_eq_nil_iff]
          intro a ha
          simp [hnone a ha]
        rw [hempty] at hts
        have h0 : (Except.ok [] : Except Unit (List TaxEntry)) = Except.ok ts := hts
        injection h0 with h0
        exact h0.symm

/-- C7 witness: a line item whose doubly-nested taxes are all in the
legacy namespace yields empty sequences — no matching 4.0-namespace
descendant exists, and no legacy fallback fires. -/
theorem C7_item_taxes_descendant_search_witness :
    CfdiTool.extraer_impuestos_concepto legacyTaxConcepto =
      .ok { traslados := [], retenciones := [] } ∧
    ((descendants legacyTaxConcepto).filter (isTag nsCfdi "Traslado")).length = 0 :=
  ⟨by decide,
   ((C7_item_taxes_descendant_search legacyTaxConcepto
       { traslados := [], retenciones := [] } (by decide)).1).symm⟩

/-- C8 counterexample: on a root with no attributes the two variants'
general-data records disagree on `lugar_expedicion` as well
(`"SIN_LUGAR"` vs `None`) — `metodo_pago` is not the only field whose
default differs. -/
theorem C8_lugar_expedicion_differs :
    (CfdiTool.extraer_datos_generales bareRoot).map DatosGenerales.lugar_expedicion =
      .ok (some "SIN_LUGAR") ∧
    (Scripts.extraer_datos_generales bareRoot).map DatosGenerales.lugar_expedicion =
      .ok none := by
  decide

/-- C8 (amended): when the root lacks `MetodoPago` the `cfdi_tool`
variant defaults to "Pago parcial" and the `scripts` variant to
"No especificado"; the `LugarExpedicion` defaults *also* differ
("SIN_LUGAR" vs `None`); all other general-data fields agree between
the two variants on every document. -/
theorem C8_variant_defaults (root : XmlElem) (d1 d2 : DatosGenerales)
    (h1 : CfdiTool.extraer_datos_generales root = .ok d1)
    (h2 : Scripts.extraer_datos_generales root = .ok d2) :
    d1.version = d2.version ∧ d1.serie = d2.serie ∧ d1.folio = d2.folio ∧
    d1.fecha = d2.fecha ∧ d1.subtotal = d2.subtotal ∧ d1.total = d2.total ∧
    d1.moneda = d2.moneda ∧ d1.tipo_comprobante = d2.tipo_comprobante ∧
    (root.get? "MetodoPago" = none →
        d1.metodo_pago = "Pago parcial" ∧ d2.metodo_pago = "No especificado") ∧
    (root.get? "MetodoPago" ≠ none → d1.metodo_pago = d2.metodo_pago) ∧
    (root.get? "LugarExpedicion" = none →
        d1.lugar_expedicion = some "SIN_LUGAR" ∧ d2.lugar_expedicion = none) := by
  unfold CfdiTool.extraer_datos_generales at h1
  unfold Scripts.extraer_datos_generales at h2
  simp only [Bind.bind, Except.bind] at h1 h2
  cases hs : pyFloat (root.getD0 "SubTotal") with
  | error e => rw [hs] at h1; cases h1
  | ok s =>
    cases ht : pyFloat (root.getD0 "Total") with
    | error e => rw [hs, ht] at h1; cases h1
    | ok t =>
      rw [hs, ht] at h1 h2
      cases h1
      cases h2
      refine ⟨rfl, rfl, rfl, rfl, rfl, rfl, rfl, rfl, ?_, ?_, ?_⟩
      · intro hm
        constructor <;> simp [XmlElem.getSD, hm]
      · intro hm
        obtain ⟨v, hv⟩ := Option.ne_none_iff_exists'.mp hm
        simp [XmlElem.getSD, hv]
      · intro hm
        constructor <;> simp [XmlElem.getSD, hm]

/-- C8 witness: the attribute-less root exhibits the two differing
payment-method defaults. -/
theorem C8_variant_defaults_witness :
    CfdiTool.extraer_datos_generales bareRoot = .ok bareDatosTool ∧
    Scripts.extraer_datos_generales bareRoot = .ok bareDatosScripts ∧
    bareDatosTool.metodo_pago = "Pago parcial" ∧
    bareDatosScripts.metodo_pago = "No especificado" := by
  have h := C8_variant_defaults bareRoot bareDatosTool bareDatosScripts (by decide) (by decide)
  exact ⟨by decide, by decide, (h.2.2.2.2.2.2.2.2.1 (by decide)).1,
         (h.2.2.2.2.2.2.2.2.1 (by decide)).2⟩

/-- C9 counterexample: two invocations of the pipeline on the *same*
tree at different invocation times produce different records — the
processing-timestamp field (`datetime.now()` in the source) breaks
record equality across invocations. -/
theorem C9_timestamp_breaks_equality :
    CfdiTool.procesar_cfdi_completo "factura.xml" "2026-02-03T12:00:00.000001" bareRoot ≠
      CfdiTool.procesar_cfdi_completo "factura.xml" "2026-02-03T12:00:00.000002" bareRoot := by
  decide

/-- C9 (amended): the pipeline is a pure function of the document tree
and the invocation time — two invocations on the same tree agree on
every field except `fecha_procesamiento` (which equals each
invocation's own timestamp), and invocations at equal timestamps give
equal records; no state is carried between documents. -/
theorem C9_pure_up_to_timestamp (archivo t1 t2 : String) (root : XmlElem)
    (r1 r2 : CfdiTool.Resultado)
    (h1 : CfdiTool.procesar_cfdi_completo archivo t1 root = .ok r1)
    (h2 : CfdiTool.procesar_cfdi_completo archivo t2 root = .ok r2) :
    r1.fecha_procesamiento = t1 ∧ r2.fecha_procesamiento = t2 ∧
    r1.archivo = r2.archivo ∧ r1.datos_generales = r2.datos_generales ∧
    r1.emisor = r2.emisor ∧ r1.receptor = r2.receptor ∧ r1.conceptos = r2.conceptos ∧
    r1.timbre = r2.timbre ∧ r1.complementos = r2.complementos ∧
    r1.impuestos = r2.impuestos ∧ (t1 = t2 → r1 = r2) := by
  unfold CfdiTool.procesar_cfdi_completo at h1 h2
  simp only [Bind.bind, Except.bind] at h1 h2
  cases hd : CfdiTool.extraer_datos_generales root with
  | error e => rw [hd] at h1; cases h1
  | ok dg =>
    cases hc : CfdiTool.extraer_conceptos root with
    | error e => rw [hd, hc] at h1; cases h1
    | ok cs =>
      cases hm : CfdiTool.extraer_complementos root with
      | error e => rw [hd, hc, hm] at h1; cases h1
      | ok cm =>
        cases hi : CfdiTool.extraer_impuestos_concepto root with
        | error e => rw [hd, hc, hm, hi] at h1; cases h1
        | ok im =>
          rw [hd, hc, hm, hi] at h1 h2
          cases h1
          cases h2
          refine ⟨rfl, rfl, rfl, rfl, rfl, rfl, rfl, rfl, rfl, rfl, ?_⟩
          intro h
          subst h
          rfl

/-- C9 witness: the bare document processed at two timestamps yields
records agreeing on general data, each carrying its own timestamp. -/
theorem C9_pure_up_to_timestamp_witness :
    (bareResultado "t1").datos_generales = (bareResultado "t2").datos_generales ∧
    (bareResultado "t1").fecha_procesamiento = "t1" := by
  have h := C9_pure_up_to_timestamp "factura.xml" "t1" "t2" bareRoot
    (bareResultado "t1") (bareResultado "t2") (by decide) (by decide)
  exact ⟨h.2.2.2.1, h.1⟩

/-- C10: the `cfdi_tool` recipient dict always carries both the
`domicilio_fiscal` and `domicilio_fiscal_receptor` keys, their values
are always equal, and both come from the `DomicilioFiscalReceptor`
attribute when a recipient element is found (null when absent). -/
theorem C10_domicilio_fields_duplicated (root : XmlElem) :
    (CfdiTool.extraer_receptor root).map Prod.fst =
      ["rfc", "nombre", "uso_cfdi", "regimen_fiscal", "domicilio_fiscal",
       "domicilio_fiscal_receptor"] ∧
    (CfdiTool.extraer_receptor root).lookup "domicilio_fiscal" =
      (CfdiTool.extraer_receptor root).lookup "domicilio_fiscal_receptor" ∧
    (∀ r2, findChild root nsCfdi "Receptor" = some r2 →
        (CfdiTool.extraer_receptor root).lookup "domicilio_fiscal" =
          some (r2.get? "DomicilioFiscalReceptor")) ∧
    (findChild root nsCfdi "Receptor" = none → findChild root nsCfdi33 "Receptor" = none →
        (CfdiTool.extraer_receptor root).lookup "domicilio_fiscal" = some none) := by
  refine ⟨?_, ?_, ?_, ?_⟩
  · unfold CfdiTool.extraer_receptor
    cases findChild root nsCfdi "Receptor" <;> cases findChild root nsCfdi33 "Receptor" <;> rfl
  · unfold CfdiTool.extraer_receptor
    cases findChild root nsCfdi "Receptor" <;> cases findChild root nsCfdi33 "Receptor" <;> rfl
  · intro r2 h
    unfold CfdiTool.extraer_receptor
    rw [h]
    rfl
  · intro h4 h3
    unfold CfdiTool.extraer_receptor
    rw [h4, h3]
    rfl

/-- C10 witness: on the bare document both fiscal-domicile fields are
present and null. -/
theorem C10_domicilio_fields_duplicated_witness :
    (CfdiTool.extraer_receptor bareRoot).lookup "domicilio_fiscal" = some none :=
  (C10_domicilio_fields_duplicated bareRoot).2.2.2 rfl rfl

end CFDI
